import Mathlib

/-!
Shallow embedding of the Portifolio_Web Flask application.

The relational schema (`models.py`) is embedded as Lean structures, one per
table, and the database as a record of row lists (list order = table order).
The route handlers of `routes.py` that the claims concern — `toggle_like`,
`add_comment`, the `/projects` listing, the featured block of `index`, and
the tag/image handling inside `admin_save_project` — are embedded as pure
functions on that state.  `get_or_404` is modelled by returning `none`
(request aborted, no state change).  SQLAlchemy `filter_by` keeps table
order, `limit n` is `take n`, `first()` is `find?`, `delete` of a fetched
row removes the first equal row, inserts append at the end of the table.
-/

/-- Enum `ProjectStatus` of models.py. -/
inductive ProjectStatus where
  | DRAFT
  | PUBLISHED
deriving DecidableEq, Repr

/-- Table `users` (models.py `User`); only the columns the embedded routes read. -/
structure User where
  id : String
  email : Option String := none
  first_name : Option String := none
  last_name : Option String := none
  is_admin : Bool := false
  is_owner : Bool := false
deriving DecidableEq, Repr

/-- Table `projects` (models.py `Project`). Counters are `Int` like the SQL
`Integer` columns; `created_at` is an abstract timestamp. -/
structure Project where
  id : Nat
  title : String := ""
  description : String := ""
  content : String := ""
  github_url : String := ""
  demo_url : String := ""
  image_url : String := ""
  status : ProjectStatus := .DRAFT
  is_featured : Bool := false
  author_id : String
  category_id : Option Nat := none
  views : Int := 0
  likes_count : Int := 0
  comments_count : Int := 0
  created_at : Nat := 0
deriving DecidableEq, Repr

/-- Table `categories` (models.py `Category`). -/
structure Category where
  id : Nat
  name : String
  color : String := "#007bff"
deriving DecidableEq, Repr

/-- Table `tags` (models.py `Tag`). -/
structure Tag where
  id : Nat
  name : String
deriving DecidableEq, Repr

/-- Join table `project_tags` (models.py `ProjectTag`). -/
structure ProjectTag where
  project_id : Nat
  tag_id : Nat
deriving DecidableEq, Repr

/-- Table `comments` (models.py `Comment`). -/
structure Comment where
  content : String
  user_id : String
  project_id : Nat
deriving DecidableEq, Repr

/-- Table `likes` (models.py `Like`); the row is identified by its
`(user_id, project_id)` pair, which carries the unique constraint. -/
structure Like where
  user_id : String
  project_id : Nat
deriving DecidableEq, Repr

/-- Table `notifications` (models.py `Notification`). -/
structure Notification where
  title : String
  message : String
  type : String := "info"
  is_read : Bool := false
  user_id : String
deriving DecidableEq, Repr

/-- The relational store: one list of rows per table, in table order. -/
structure DB where
  users : List User := []
  projects : List Project := []
  categories : List Category := []
  tags : List Tag := []
  project_tags : List ProjectTag := []
  comments : List Comment := []
  likes : List Like := []
  notifications : List Notification := []
deriving DecidableEq, Repr

/-- Python `str.strip()`: drop leading and trailing whitespace. -/
def strip (s : String) : String :=
  ⟨((s.data.dropWhile Char.isWhitespace).reverse.dropWhile
      Char.isWhitespace).reverse⟩

/-- Python `str.lower()`. -/
def lowerStr (s : String) : String :=
  ⟨s.data.map Char.toLower⟩

/-- Python `s.rsplit(".", 1)[1]`: the text after the last dot (meaningful
only when a dot is present). -/
def extAfterLastDot (s : String) : String :=
  ⟨(s.data.reverse.takeWhile (fun c => c != Char.ofNat 46)).reverse⟩

/-- Python `x or 'Someone'` on the actor's `first_name` column:
`None` and the empty string are falsy. -/
def displayName (first_name : Option String) : String :=
  match first_name with
  | none => "Someone"
  | some s => if s = "" then "Someone" else s

/-- The ORM write `project.likes_count = v` on the row with primary key
`project_id`, seen at commit time: the row with that id gets the new value. -/
def setLikesCount (project_id : Nat) (v : Int) (p : Project) : Project :=
  if p.id == project_id then { p with likes_count := v } else p

/-- The ORM write `project.comments_count += 1` on the row with primary key
`project_id`. -/
def bumpCommentsCount (project_id : Nat) (p : Project) : Project :=
  if p.id == project_id then { p with comments_count := p.comments_count + 1 }
  else p

/-- routes.py `toggle_like` (lines 169-208).  Returns `none` when
`get_or_404` aborts, otherwise the new state, the `liked` flag and the
`likes_count` value of the JSON response. -/
def toggle_like (db : DB) (actor : User) (project_id : Nat) :
    Option (DB × Bool × Int) :=
  match db.projects.find? (fun p => p.id == project_id) with
  | none => none
  | some project =>
    match db.likes.find?
        (fun l => l.user_id == actor.id && l.project_id == project_id) with
    | some existing_like =>
      let new_count : Int := max 0 (project.likes_count - 1)
      let db' : DB := { db with
        likes := db.likes.erase existing_like,
        projects := db.projects.map (setLikesCount project_id new_count) }
      some (db', false, new_count)
    | none =>
      let new_count : Int := project.likes_count + 1
      let db' : DB := { db with
        likes := db.likes ++ [{ user_id := actor.id, project_id := project_id }],
        projects := db.projects.map (setLikesCount project_id new_count),
        notifications :=
          if project.author_id ≠ actor.id then
            db.notifications ++ [{
              title := "New Like",
              message := displayName actor.first_name ++
                " liked your project \x27" ++ project.title ++ "\x27",
              type := "success",
              user_id := project.author_id }]
          else db.notifications }
      some (db', true, new_count)

/-- One `toggle_like` request: a 404 leaves the store untouched. -/
def toggleStep (db : DB) (op : User × Nat) : DB :=
  match toggle_like db op.1 op.2 with
  | none => db
  | some (db', _, _) => db'

/-- A sequence of `toggle_like` requests by arbitrary authenticated actors. -/
def runToggles (db : DB) (ops : List (User × Nat)) : DB :=
  ops.foldl toggleStep db

/-- Number of Like rows whose `project_id` is `pid`. -/
def countLikes (db : DB) (pid : Nat) : Nat :=
  (db.likes.filter (fun l => l.project_id == pid)).length

/-- The denormalized-counter invariant at one project id: every `projects`
row with that id has `likes_count` equal to the number of Like rows for it. -/
def likesInvAt (db : DB) (pid : Nat) : Prop :=
  ∀ p ∈ db.projects, p.id = pid → p.likes_count = (countLikes db pid : Int)

instance (db : DB) (pid : Nat) : Decidable (likesInvAt db pid) := by
  unfold likesInvAt; infer_instance

/-- Result channel of routes.py `add_comment`: the empty-content branch
flashes an error and redirects without touching the store. -/
inductive AddCommentResult where
  | validationError
  | ok
deriving DecidableEq, Repr

/-- routes.py `add_comment` (lines 210-243).  `none` when `get_or_404`
aborts; otherwise the new state and whether the comment was accepted. -/
def add_comment (db : DB) (actor : User) (project_id : Nat) (raw : String) :
    Option (DB × AddCommentResult) :=
  match db.projects.find? (fun p => p.id == project_id) with
  | none => none
  | some project =>
    let content := strip raw
    if content = "" then
      some (db, .validationError)
    else
      let db' : DB := { db with
        comments := db.comments ++
          [{ content := content, user_id := actor.id, project_id := project_id }],
        projects := db.projects.map (bumpCommentsCount project_id),
        notifications :=
          if project.author_id ≠ actor.id then
            db.notifications ++ [{
              title := "New Comment",
              message := displayName actor.first_name ++
                " commented on your project \x27" ++ project.title ++ "\x27",
              type := "info",
              user_id := project.author_id }]
          else db.notifications }
      some (db', .ok)

/-- Query-string filter of the `/projects` route: each field is the raw
request argument, so Python truthiness decides whether a clause applies
(`None` and `0` / the empty string are falsy). -/
structure ProjectFilter where
  page : Nat := 1
  category_id : Option Nat := none
  tag_name : Option String := none
  search_query : String := ""
deriving Repr

/-- Python `needle in haystack` on strings (`str.contains` of the query). -/
def strContains (haystack needle : String) : Bool :=
  decide (needle.data <:+: haystack.data)

/-- Clause `if category_id:` of routes.py lines 86-87 (`None` and `0` are
falsy). -/
def applyCategoryClause (f : ProjectFilter) (query : List Project) :
    List Project :=
  match f.category_id with
  | some cid =>
    if cid ≠ 0 then query.filter (fun p => p.category_id == some cid) else query
  | none => query

/-- Clause `if tag_name:` of routes.py lines 89-92: the join is applied only
when a Tag row with that name exists. -/
def applyTagClause (db : DB) (f : ProjectFilter) (query : List Project) :
    List Project :=
  match f.tag_name with
  | some tname =>
    if tname ≠ "" then
      match db.tags.find? (fun t => t.name == tname) with
      | some tag => query.filter (fun p =>
          db.project_tags.any (fun pt => pt.project_id == p.id && pt.tag_id == tag.id))
      | none => query
    else query
  | none => query

/-- Clause `if search_query:` of routes.py lines 94-100. -/
def applySearchClause (f : ProjectFilter) (query : List Project) :
    List Project :=
  if f.search_query ≠ "" then
    query.filter (fun p =>
      strContains p.title f.search_query || strContains p.description f.search_query)
  else query

/-- routes.py `projects` (lines 74-105): base filter on published status,
the three optional clauses, newest-first ordering, page size 9. -/
def list_projects (db : DB) (f : ProjectFilter) : List Project :=
  let query := db.projects.filter (fun p => p.status == ProjectStatus.PUBLISHED)
  let query := applyCategoryClause f query
  let query := applyTagClause db f query
  let query := applySearchClause f query
  let sorted := query.insertionSort (fun a b => b.created_at ≤ a.created_at)
  (sorted.drop ((f.page - 1) * 9)).take 9

/-- The `featured_projects` block of routes.py `index` (lines 50-53):
`filter_by(status=PUBLISHED, is_featured=True).limit(3)` — no `order_by`,
so rows come back in table order. -/
def featured_projects (db : DB) : List Project :=
  (db.projects.filter (fun p =>
    p.status == ProjectStatus.PUBLISHED && p.is_featured)).take 3

/-- The tag-reconciliation block of routes.py `admin_save_project`
(lines 379-388): only when the submitted list is non-empty, delete the
project's ProjectTag rows and insert one row per submitted id. -/
def set_project_tags (db : DB) (project_id : Nat) (tag_ids : List Nat) : DB :=
  if tag_ids ≠ [] then
    { db with project_tags :=
        (db.project_tags.filter (fun pt => pt.project_id != project_id)) ++
        tag_ids.map (fun t => { project_id := project_id, tag_id := t }) }
  else db

/-- app.py `ALLOWED_EXTENSIONS`. -/
def ALLOWED_EXTENSIONS : List String := ["png", "jpg", "jpeg", "gif"]

/-- routes.py `allowed_file` (lines 31-32): a dot is present and the text
after the last dot, lowercased, is an allowed extension. -/
def allowed_file (filename : String) : Bool :=
  filename.data.contains (Char.ofNat 46) &&
    ALLOWED_EXTENSIONS.contains (lowerStr (extAfterLastDot filename))

/-- The form data of a `admin_save_project` request, one field per
`request.form` / `request.files` read in routes.py lines 337-379.
`image` is the uploaded file's client filename (`none`: no file part). -/
structure SaveForm where
  project_id : Option Nat := none
  title : String := ""
  description : String := ""
  content : String := ""
  github_url : String := ""
  demo_url : String := ""
  category_id : Option Nat := none
  is_featured : Bool := false
  status : Option String := none
  image : Option String := none
  tags : List Nat := []
deriving Repr

/-- Field overwrite of routes.py lines 344-371 applied to one project row;
`fresh` stands for the `uuid4().hex` part of the stored filename. -/
def apply_save_form (project : Project) (form : SaveForm) (fresh : String) :
    Project :=
  let project := { project with
    title := strip form.title,
    description := strip form.description,
    content := strip form.content,
    github_url := strip form.github_url,
    demo_url := strip form.demo_url,
    category_id := form.category_id,
    is_featured := form.is_featured,
    status := if form.status = some "published" then ProjectStatus.PUBLISHED
              else ProjectStatus.DRAFT }
  match form.image with
  | some filename =>
    if filename ≠ "" && allowed_file filename then
      let ext := lowerStr (extAfterLastDot filename)
      { project with image_url := "/static/uploads/" ++ fresh ++ "." ++ ext }
    else project
  | none => project

/-- Autoincrement id for a newly flushed project row. -/
def nextProjectId (db : DB) : Nat :=
  (db.projects.map (fun p => p.id)).foldr max 0 + 1

/-- routes.py `admin_save_project` (lines 333-392).  `none` when the
submitted id names no project (`get_or_404`); otherwise the new state.
A falsy (absent or zero) `project_id` takes the create path. -/
def admin_save_project (db : DB) (actor : User) (form : SaveForm)
    (fresh : String) : Option DB :=
  let truthy_id :=
    match form.project_id with
    | some n => if n ≠ 0 then some n else none
    | none => none
  match truthy_id with
  | some pid =>
    match db.projects.find? (fun p => p.id == pid) with
    | none => none
    | some project =>
      let project' := apply_save_form project form fresh
      let db' : DB := { db with projects := db.projects.map (fun p =>
        if p.id == pid then project' else p) }
      some (set_project_tags db' pid form.tags)
  | none =>
    let project : Project := { id := nextProjectId db, author_id := actor.id }
    let project' := apply_save_form project form fresh
    let db' : DB := { db with projects := db.projects ++ [project'] }
    some (set_project_tags db' project'.id form.tags)

/-! ## Concrete fixtures used by witnesses and counterexamples -/

/-- A visitor with a display name. -/
def alice : User := { id := "alice", first_name := some "Alice" }

/-- The portfolio owner, author of the fixture projects. -/
def bob : User := { id := "bob" }

/-- A published, featured project created first. -/
def fixP1 : Project :=
  { id := 1
    title := "P1"
    author_id := "bob"
    status := ProjectStatus.PUBLISHED
    is_featured := true
    created_at := 1 }

/-- A published, featured project created second. -/
def fixP2 : Project :=
  { id := 2
    title := "P2"
    author_id := "bob"
    status := ProjectStatus.PUBLISHED
    is_featured := true
    created_at := 2 }

/-- Base fixture store: two published featured projects by `bob`, no
engagement rows yet. -/
def fixDB : DB :=
  { users := [alice, bob]
    projects := [fixP1, fixP2]
    tags := [{ id := 3, name := "Flask" }] }

/-! ## Helper lemmas -/

theorem setLikesCount_id (pid : Nat) (v : Int) (p : Project) :
    (setLikesCount pid v p).id = p.id := by
  unfold setLikesCount
  split <;> rfl

theorem setLikesCount_of_ne (pid : Nat) (v : Int) (p : Project)
    (h : p.id ≠ pid) : setLikesCount pid v p = p := by
  unfold setLikesCount
  rw [if_neg (by simpa using h)]

theorem setLikesCount_of_eq (pid : Nat) (v : Int) (p : Project)
    (h : p.id = pid) : setLikesCount pid v p = { p with likes_count := v } := by
  unfold setLikesCount
  rw [if_pos (by simpa using h)]

theorem setLikesCount_self (pid : Nat) (v : Int) (p : Project)
    (h : p.likes_count = v) : setLikesCount pid v p = p := by
  unfold setLikesCount
  split
  · rw [← h]
  · rfl

/-- Looking a project up by id after a counter write finds the written row. -/
theorem find?_map_setLikesCount (pid pid' : Nat) (v : Int) (l : List Project) :
    (l.map (setLikesCount pid' v)).find? (fun p => p.id == pid) =
      Option.map (setLikesCount pid' v) (l.find? (fun p => p.id == pid)) := by
  rw [List.find?_map]
  have hpred : ((fun p => p.id == pid) ∘ setLikesCount pid' v) =
      (fun p : Project => p.id == pid) := by
    funext p
    simp [Function.comp, setLikesCount_id]
  rw [hpred]

/-- Removing a row from a table shifts each predicate count by that row's
own predicate value. -/
theorem length_filter_erase {α : Type} [DecidableEq α] (q : α → Bool)
    {l : α} {ls : List α} (h : l ∈ ls) :
    (ls.filter q).length =
      (if q l then 1 else 0) + ((ls.erase l).filter q).length := by
  have hperm := (List.perm_cons_erase h).filter q
  rw [hperm.length_eq, List.filter_cons]
  split
  · simp
    omega
  · simp

/-- Unlike branch of `toggle_like` as an equation. -/
theorem toggle_like_unlike_eq (db : DB) (actor : User) (pid : Nat)
    (project : Project) (l : Like)
    (hp : db.projects.find? (fun p => p.id == pid) = some project)
    (hl : db.likes.find?
      (fun x => x.user_id == actor.id && x.project_id == pid) = some l) :
    toggle_like db actor pid = some
      ({ db with
          likes := db.likes.erase l,
          projects := db.projects.map
            (setLikesCount pid (max 0 (project.likes_count - 1))) },
        false, max 0 (project.likes_count - 1)) := by
  unfold toggle_like
  rw [hp, hl]

/-- Like branch of `toggle_like` as an equation. -/
theorem toggle_like_like_eq (db : DB) (actor : User) (pid : Nat)
    (project : Project)
    (hp : db.projects.find? (fun p => p.id == pid) = some project)
    (hl : db.likes.find?
      (fun x => x.user_id == actor.id && x.project_id == pid) = none) :
    toggle_like db actor pid = some
      ({ db with
          likes := db.likes ++ [{ user_id := actor.id, project_id := pid }],
          projects := db.projects.map
            (setLikesCount pid (project.likes_count + 1)),
          notifications :=
            if project.author_id ≠ actor.id then
              db.notifications ++ [{
                title := "New Like",
                message := displayName actor.first_name ++
                  " liked your project \x27" ++ project.title ++ "\x27",
                type := "success",
                user_id := project.author_id }]
            else db.notifications },
        true, project.likes_count + 1) := by
  unfold toggle_like
  rw [hp, hl]

theorem applyCategoryClause_subset (f : ProjectFilter) (q : List Project) :
    applyCategoryClause f q ⊆ q := by
  intro x hx
  unfold applyCategoryClause at hx
  split at hx
  · split at hx
    · exact (List.mem_filter.mp hx).1
    · exact hx
  · exact hx

theorem applyTagClause_subset (db : DB) (f : ProjectFilter)
    (q : List Project) : applyTagClause db f q ⊆ q := by
  intro x hx
  unfold applyTagClause at hx
  split at hx
  · split at hx
    · split at hx
      · exact (List.mem_filter.mp hx).1
      · exact hx
    · exact hx
  · exact hx

theorem applySearchClause_subset (f : ProjectFilter) (q : List Project) :
    applySearchClause f q ⊆ q := by
  intro x hx
  unfold applySearchClause at hx
  split at hx
  · exact (List.mem_filter.mp hx).1
  · exact hx

/-! ## Claim theorems -/

/-- C4: for an existing project, `add_comment` with content that trims to
the empty string is rejected with a validation error and leaves the store
exactly as it was: no Comment row, no counter change, no Notification. -/
theorem add_comment_empty_rejected (db : DB) (actor : User) (pid : Nat)
    (project : Project) (raw : String)
    (hp : db.projects.find? (fun p => p.id == pid) = some project)
    (hraw : strip raw = "") :
    add_comment db actor pid raw = some (db, AddCommentResult.validationError) := by
  unfold add_comment
  rw [hp]
  simp [hraw]

/-- Witness for C4 at a concrete store and input. -/
theorem add_comment_empty_rejected_witness :
    add_comment fixDB alice 1 "   " =
      some (fixDB, AddCommentResult.validationError) :=
  add_comment_empty_rejected fixDB alice 1 fixP1 "   " (by decide) (by decide)

/-- C5: every project returned by the `/projects` listing, under every
filter combination, has status `published`. -/
theorem list_projects_only_published (db : DB) (f : ProjectFilter)
    (p : Project) (hp : p ∈ list_projects db f) :
    p.status = ProjectStatus.PUBLISHED := by
  simp only [list_projects] at hp
  have h1 := List.mem_of_mem_drop (List.mem_of_mem_take hp)
  have h2 := (List.perm_insertionSort _ _).mem_iff.mp h1
  have h3 := applyCategoryClause_subset f _
    (applyTagClause_subset db f _ (applySearchClause_subset f _ h2))
  have h4 := (List.mem_filter.mp h3).2
  simpa using h4

/-- Witness for C5: the fixture listing is non-empty and the theorem applies
to its head. -/
theorem list_projects_only_published_witness :
    fixP2.status = ProjectStatus.PUBLISHED :=
  list_projects_only_published fixDB {} fixP2 (by decide)

/-- C6: a tag filter naming no existing Tag row is silently skipped: the
result is exactly the result of the same filter without a tag clause. -/
theorem list_projects_unknown_tag_skipped (db : DB) (f : ProjectFilter)
    (tname : String) (hmiss : ∀ t ∈ db.tags, t.name ≠ tname) :
    list_projects db { f with tag_name := some tname } =
      list_projects db { f with tag_name := none } := by
  have hfind : db.tags.find? (fun t => t.name == tname) = none := by
    rw [List.find?_eq_none]
    intro t ht
    simpa using hmiss t ht
  by_cases h : tname = ""
  · simp [list_projects, applyCategoryClause, applyTagClause, applySearchClause, h]
  · simp [list_projects, applyCategoryClause, applyTagClause, applySearchClause,
      h, hfind]

/-- Witness for C6: filtering the fixture store by a tag name that matches
no Tag row equals the unfiltered-by-tag listing. -/
theorem list_projects_unknown_tag_skipped_witness :
    list_projects fixDB { tag_name := some "nosuch" } =
      list_projects fixDB { tag_name := none } :=
  list_projects_unknown_tag_skipped fixDB {} "nosuch" (by decide)

/-- C7 (amended): the featured block of the homepage contains only
published, featured projects and at most 3 of them; the source applies no
`order_by`, so no newest-first ordering is guaranteed. -/
theorem featured_projects_published_limit3 (db : DB) :
    ((featured_projects db).all
      (fun p => p.status == ProjectStatus.PUBLISHED && p.is_featured)) = true ∧
    (featured_projects db).length ≤ 3 := by
  constructor
  · rw [List.all_eq_true]
    intro x hx
    simp only [featured_projects] at hx
    exact (List.mem_filter.mp (List.mem_of_mem_take hx)).2
  · exact List.length_take_le _ _

/-- C7 counterexample: on the fixture store the featured list is in table
order (oldest first), not newest-first as the claim states. -/
theorem featured_projects_not_newest_first :
    ¬ List.Pairwise (fun a b => b.created_at ≤ a.created_at)
      (featured_projects fixDB) := by
  decide

/-- C8 (amended): for a non-empty submitted tag list, the reconciliation
block deletes every ProjectTag row of the project and inserts one row per
submitted id (so reading the project's tag ids back yields exactly the
submitted list), and it leaves every other project's rows untouched; for an
empty submitted list the block is skipped and the store is unchanged. -/
theorem set_project_tags_replace_nonempty (db : DB) (pid : Nat)
    (tag_ids : List Nat) (h : tag_ids ≠ []) :
    (((set_project_tags db pid tag_ids).project_tags.filter
        (fun pt => pt.project_id == pid)).map (fun pt => pt.tag_id)) = tag_ids ∧
    ((set_project_tags db pid tag_ids).project_tags.filter
        (fun pt => pt.project_id != pid)) =
      db.project_tags.filter (fun pt => pt.project_id != pid) ∧
    set_project_tags db pid [] = db := by
  refine ⟨?_, ?_, by simp [set_project_tags]⟩
  · simp only [set_project_tags, if_pos h, List.filter_append,
      List.filter_filter, List.filter_map]
    simp [Function.comp, List.map_map, bne]
    simp [Function.comp_def]
  · simp only [set_project_tags, if_pos h, List.filter_append,
      List.filter_filter, List.filter_map]
    simp [Function.comp]

/-- Witness for C8 at a concrete store: replacing with `[5, 7]` reads back
`[5, 7]`. -/
theorem set_project_tags_replace_nonempty_witness :
    (((set_project_tags
        { fixDB with project_tags := [{ project_id := 1, tag_id := 3 }] }
        1 [5, 7]).project_tags.filter
          (fun pt => pt.project_id == 1)).map (fun pt => pt.tag_id)) = [5, 7] :=
  (set_project_tags_replace_nonempty
    { fixDB with project_tags := [{ project_id := 1, tag_id := 3 }] }
    1 [5, 7] (by decide)).1

/-- C8 counterexample: with an empty submitted list the source skips the
block entirely, so a project that had a tag keeps it — the claim's
"`set_project_tags(P, [])` leaves P with zero ProjectTag rows" is false. -/
theorem set_project_tags_empty_not_clearing :
    ((set_project_tags
        { fixDB with project_tags := [{ project_id := 1, tag_id := 3 }] }
        1 []).project_tags.filter (fun pt => pt.project_id == 1)).length ≠ 0 := by
  decide

/-- C9 (amended): when the attached image's filename has a disallowed
extension, `admin_save_project` does not fail: the upload is silently
skipped (`image_url` keeps its old value) while the save proceeds and the
scalar fields are overwritten from the form. -/
theorem admin_save_project_bad_extension (db : DB) (actor : User)
    (form : SaveForm) (fresh : String) (pid : Nat) (project : Project)
    (fname : String)
    (hpid : form.project_id = some pid) (hpz : pid ≠ 0)
    (hp : db.projects.find? (fun p => p.id == pid) = some project)
    (himg : form.image = some fname) (hbad : allowed_file fname = false) :
    admin_save_project db actor form fresh ≠ none ∧
    ∀ db' ∈ admin_save_project db actor form fresh,
      ∀ q ∈ db'.projects, q.id = pid →
        q.image_url = project.image_url ∧ q.title = strip form.title := by
  have happly : apply_save_form project form fresh =
      { project with
        title := strip form.title,
        description := strip form.description,
        content := strip form.content,
        github_url := strip form.github_url,
        demo_url := strip form.demo_url,
        category_id := form.category_id,
        is_featured := form.is_featured,
        status := if form.status = some "published" then ProjectStatus.PUBLISHED
                  else ProjectStatus.DRAFT } := by
    unfold apply_save_form
    rw [himg]
    simp [hbad]
  have hrun : admin_save_project db actor form fresh =
      some (set_project_tags
        { db with projects := db.projects.map (fun p =>
            if p.id == pid then apply_save_form project form fresh else p) }
        pid form.tags) := by
    unfold admin_save_project
    rw [hpid]
    simp only [if_pos hpz]
    rw [hp]
  constructor
  · rw [hrun]
    exact Option.some_ne_none _
  · intro db' hdb' q hq hqid
    rw [hrun, Option.mem_def, Option.some.injEq] at hdb'
    subst hdb'
    have hqmem : q ∈ ({ db with projects := db.projects.map (fun p =>
        if p.id == pid then apply_save_form project form fresh else p) } :
          DB).projects := by
      unfold set_project_tags at hq
      split at hq
      · exact hq
      · exact hq
    obtain ⟨r, hr, hrq⟩ := List.mem_map.mp hqmem
    by_cases hrid : r.id == pid
    · rw [if_pos hrid] at hrq
      subst hrq
      rw [happly]
      exact ⟨rfl, rfl⟩
    · rw [if_neg hrid] at hrq
      subst hrq
      exact absurd hqid (by simpa using hrid)

/-- Witness for C9's amended statement at a concrete store and form. -/
theorem admin_save_project_bad_extension_witness :
    admin_save_project fixDB bob
        { project_id := some 1, title := "New", image := some "virus.exe" }
        "u0" ≠ none ∧
    ∀ db' ∈ admin_save_project fixDB bob
        { project_id := some 1, title := "New", image := some "virus.exe" }
        "u0",
      ∀ q ∈ db'.projects, q.id = 1 →
        q.image_url = fixP1.image_url ∧
        q.title = strip (SaveForm.title
          { project_id := some 1, title := "New", image := some "virus.exe" }) :=
  admin_save_project_bad_extension fixDB bob
    { project_id := some 1, title := "New", image := some "virus.exe" }
    "u0" 1 fixP1 "virus.exe" (by decide) (by decide) (by decide) (by decide)
    (by decide)

/-- C9 counterexample: a save carrying a `.exe` image does not fail with a
validation error — it succeeds, the scalar `title` field is overwritten,
and only the upload itself is skipped. -/
theorem admin_save_project_bad_extension_not_error :
    admin_save_project fixDB bob
        { project_id := some 1, title := "New", image := some "virus.exe" }
        "u0" ≠ none ∧
    ((admin_save_project fixDB bob
        { project_id := some 1, title := "New", image := some "virus.exe" }
        "u0").map (fun d => d.projects.map (fun p => (p.title, p.image_url)))) =
      some [("New", ""), ("P2", "")] := by
  constructor
  · decide
  · decide

/-- The fixture store after `alice` likes project 1. -/
def fixDBLiked : DB := toggleStep fixDB (alice, 1)

/-- C3: branch behaviour of `toggle_like` on an existing project.  When a
Like row of the actor exists it is deleted, the counter is decremented with
a floor of 0, the result is `liked = false` and no notification is written;
otherwise a Like row is inserted, the counter is incremented, the result is
`liked = true`, and a success notification naming the actor's display name
(or the placeholder) goes to the author exactly when the actor is not the
author. -/
theorem toggle_like_branch_spec (db : DB) (actor : User) (pid : Nat)
    (project : Project) (db' : DB) (liked : Bool) (cnt : Int)
    (hp : db.projects.find? (fun p => p.id == pid) = some project)
    (ht : toggle_like db actor pid = some (db', liked, cnt)) :
    (∀ l, db.likes.find?
        (fun x => x.user_id == actor.id && x.project_id == pid) = some l →
      liked = false ∧ cnt = max 0 (project.likes_count - 1) ∧
      db'.likes = db.likes.erase l ∧
      (∀ q ∈ db'.projects, q.id = pid →
        q.likes_count = max 0 (project.likes_count - 1)) ∧
      db'.comments = db.comments ∧
      db'.notifications = db.notifications) ∧
    (db.likes.find?
        (fun x => x.user_id == actor.id && x.project_id == pid) = none →
      liked = true ∧ cnt = project.likes_count + 1 ∧
      db'.likes = db.likes ++ [{ user_id := actor.id, project_id := pid }] ∧
      (∀ q ∈ db'.projects, q.id = pid →
        q.likes_count = project.likes_count + 1) ∧
      db'.comments = db.comments ∧
      db'.notifications =
        (if actor.id ≠ project.author_id then
          db.notifications ++ [{
            title := "New Like",
            message := displayName actor.first_name ++
              " liked your project \x27" ++ project.title ++ "\x27",
            type := "success",
            user_id := project.author_id }]
        else db.notifications)) := by
  constructor
  · intro l hl
    rw [toggle_like_unlike_eq db actor pid project l hp hl] at ht
    simp only [Option.some.injEq, Prod.mk.injEq] at ht
    obtain ⟨hdb, hliked, hcnt⟩ := ht
    subst hdb
    subst hliked
    subst hcnt
    refine ⟨rfl, rfl, rfl, ?_, rfl, rfl⟩
    intro q hq hqid
    obtain ⟨r, hr, rfl⟩ := List.mem_map.mp hq
    rw [setLikesCount_id] at hqid
    rw [setLikesCount_of_eq _ _ _ hqid]
  · intro hl
    rw [toggle_like_like_eq db actor pid project hp hl] at ht
    simp only [Option.some.injEq, Prod.mk.injEq] at ht
    obtain ⟨hdb, hliked, hcnt⟩ := ht
    subst hdb
    subst hliked
    subst hcnt
    refine ⟨rfl, rfl, rfl, ?_, rfl, ?_⟩
    · intro q hq hqid
      obtain ⟨r, hr, rfl⟩ := List.mem_map.mp hq
      rw [setLikesCount_id] at hqid
      rw [setLikesCount_of_eq _ _ _ hqid]
    · by_cases hauth : project.author_id = actor.id
      · rw [if_neg (fun hc => hc hauth), if_neg (fun hc => hc hauth.symm)]
      · rw [if_pos hauth, if_pos (Ne.symm hauth)]

/-- Witness for C3: on the fixture store, `alice` liking project 1 (owned
by `bob`) appends the success notification described by the theorem. -/
theorem toggle_like_branch_spec_witness :
    fixDBLiked.notifications =
      (if alice.id ≠ fixP1.author_id then
        fixDB.notifications ++ [{
          title := "New Like",
          message := displayName alice.first_name ++
            " liked your project \x27" ++ fixP1.title ++ "\x27",
          type := "success",
          user_id := fixP1.author_id }]
      else fixDB.notifications) :=
  ((toggle_like_branch_spec fixDB alice 1 fixP1 fixDBLiked true 1
      (by decide) (by decide)).2 (by decide)).2.2.2.2.2

/-- Everything of a project row except the mutable `likes_count` counter. -/
def project_frame (p : Project) : Project := { p with likes_count := 0 }

/-- C10: `toggle_like` only ever touches the Like table, the Notification
table and the `likes_count` column: users, categories, tags, project-tag
rows and comments are untouched, and every project row keeps all its other
fields. -/
theorem toggle_like_frame (db : DB) (actor : User) (pid : Nat)
    (db' : DB) (liked : Bool) (cnt : Int)
    (ht : toggle_like db actor pid = some (db', liked, cnt)) :
    db'.users = db.users ∧ db'.categories = db.categories ∧
    db'.tags = db.tags ∧ db'.project_tags = db.project_tags ∧
    db'.comments = db.comments ∧
    db'.projects.map project_frame = db.projects.map project_frame := by
  unfold toggle_like at ht
  cases hp : db.projects.find? (fun p => p.id == pid) with
  | none =>
    rw [hp] at ht
    exact absurd ht (by simp)
  | some project =>
    rw [hp] at ht
    have hmapframe : ∀ v : Int,
        (db.projects.map (setLikesCount pid v)).map project_frame =
          db.projects.map project_frame := by
      intro v
      rw [List.map_map]
      apply List.map_congr_left
      intro a ha
      show project_frame (setLikesCount pid v a) = project_frame a
      unfold setLikesCount
      split
      · rfl
      · rfl
    cases hl : db.likes.find?
        (fun x => x.user_id == actor.id && x.project_id == pid) with
    | some l =>
      rw [hl] at ht
      simp only [Option.some.injEq, Prod.mk.injEq] at ht
      obtain ⟨hdb, -, -⟩ := ht
      subst hdb
      exact ⟨rfl, rfl, rfl, rfl, rfl, hmapframe _⟩
    | none =>
      rw [hl] at ht
      simp only [Option.some.injEq, Prod.mk.injEq] at ht
      obtain ⟨hdb, -, -⟩ := ht
      subst hdb
      exact ⟨rfl, rfl, rfl, rfl, rfl, hmapframe _⟩

/-- Witness for C10 at the fixture store. -/
theorem toggle_like_frame_witness :
    fixDBLiked.comments = fixDB.comments ∧
    fixDBLiked.projects.map project_frame =
      fixDB.projects.map project_frame :=
  ⟨(toggle_like_frame fixDB alice 1 fixDBLiked true 1 (by decide)).2.2.2.2.1,
   (toggle_like_frame fixDB alice 1 fixDBLiked true 1 (by decide)).2.2.2.2.2⟩

/-- One `toggle_like` request preserves the likes-counter invariant at any
project id. -/
theorem likesInvAt_toggleStep (db : DB) (pid : Nat) (op : User × Nat)
    (hinv : likesInvAt db pid) : likesInvAt (toggleStep db op) pid := by
  obtain ⟨actor, pid'⟩ := op
  unfold toggleStep
  cases hp : toggle_like db actor pid' with
  | none => exact hinv
  | some res =>
    obtain ⟨db', liked, cnt⟩ := res
    cases hfp : db.projects.find? (fun p => p.id == pid') with
    | none =>
      unfold toggle_like at hp
      rw [hfp] at hp
      exact absurd hp (by simp)
    | some project =>
      have hproj_mem : project ∈ db.projects := List.mem_of_find?_eq_some hfp
      have hproj_id : project.id = pid' := by simpa using List.find?_some hfp
      cases hfl : db.likes.find?
          (fun x => x.user_id == actor.id && x.project_id == pid') with
      | some l =>
        rw [toggle_like_unlike_eq db actor pid' project l hfp hfl] at hp
        simp only [Option.some.injEq, Prod.mk.injEq] at hp
        obtain ⟨hdb, -, -⟩ := hp
        subst hdb
        have hl_mem : l ∈ db.likes := List.mem_of_find?_eq_some hfl
        have hl_pid : l.project_id = pid' := by
          have h := List.find?_some hfl
          simp at h
          exact h.2
        have hcnt := length_filter_erase (fun x : Like => x.project_id == pid)
          hl_mem
        intro q hq hqid
        obtain ⟨r, hr, rfl⟩ := List.mem_map.mp hq
        rw [setLikesCount_id] at hqid
        simp only [countLikes]
        by_cases hpid : pid' = pid
        · subst hpid
          rw [setLikesCount_of_eq _ _ _ hqid]
          have hinvp := hinv project hproj_mem hproj_id
          rw [if_pos (by simp [hl_pid])] at hcnt
          rw [hinvp]
          simp only [countLikes] at hcnt ⊢
          omega
        · rw [setLikesCount_of_ne _ _ _ (by rw [hqid]; exact fun hc => hpid hc.symm)]
          rw [if_neg (by simp [hl_pid]; exact hpid)] at hcnt
          have hinvr := hinv r hr hqid
          simp only [countLikes] at hinvr hcnt ⊢
          omega
      | none =>
        rw [toggle_like_like_eq db actor pid' project hfp hfl] at hp
        simp only [Option.some.injEq, Prod.mk.injEq] at hp
        obtain ⟨hdb, -, -⟩ := hp
        subst hdb
        intro q hq hqid
        obtain ⟨r, hr, rfl⟩ := List.mem_map.mp hq
        rw [setLikesCount_id] at hqid
        simp only [countLikes, List.filter_append, List.length_append]
        by_cases hpid : pid' = pid
        · subst hpid
          rw [setLikesCount_of_eq _ _ _ hqid]
          have hinvp := hinv project hproj_mem hproj_id
          rw [hinvp]
          simp only [countLikes]
          simp [List.filter_cons]
        · rw [setLikesCount_of_ne _ _ _ (by rw [hqid]; exact fun hc => hpid hc.symm)]
          have hinvr := hinv r hr hqid
          rw [hinvr]
          simp only [countLikes]
          have : (({ user_id := actor.id, project_id := pid' } : Like).project_id
              == pid) = false := by
            simp
            exact hpid
          simp [List.filter_cons, this]

/-- C1: for any project id at which the denormalized counter matches the
number of Like rows, the match still holds after any sequence of
`toggle_like` requests by any authenticated actors. -/
theorem likes_count_invariant_preserved (db : DB) (pid : Nat)
    (ops : List (User × Nat)) (hinv : likesInvAt db pid) :
    likesInvAt (runToggles db ops) pid := by
  induction ops generalizing db with
  | nil => exact hinv
  | cons op rest ih => exact ih _ (likesInvAt_toggleStep db pid op hinv)

/-- Witness for C1: the invariant holds on the fixture store and still
holds after a four-request toggle sequence by two actors. -/
theorem likes_count_invariant_preserved_witness :
    likesInvAt fixDB 1 ∧
    likesInvAt (runToggles fixDB [(alice, 1), (bob, 1), (alice, 2), (alice, 1)]) 1 :=
  ⟨by decide,
   likes_count_invariant_preserved fixDB 1
     [(alice, 1), (bob, 1), (alice, 2), (alice, 1)] (by decide)⟩

/-- Two successive counter writes at one id cancel when the second write
puts back each affected row's original value. -/
theorem map_setLikesCount_twice (l : List Project) (pid : Nat) (v1 v2 : Int)
    (h : ∀ r ∈ l, r.id = pid → r.likes_count = v2) :
    (l.map (setLikesCount pid v1)).map (setLikesCount pid v2) = l := by
  rw [List.map_map]
  have hpt : ∀ a ∈ l, (setLikesCount pid v2 ∘ setLikesCount pid v1) a = id a := by
    intro a ha
    show setLikesCount pid v2 (setLikesCount pid v1 a) = a
    by_cases hid : a.id = pid
    · rw [setLikesCount_of_eq _ _ _ hid]
      have h2 : ({ a with likes_count := v1 } : Project).id = pid := hid
      rw [setLikesCount_of_eq _ _ _ h2, ← h a ha hid]
    · rw [setLikesCount_of_ne _ _ _ hid, setLikesCount_of_ne _ _ _ hid]
  rw [List.map_congr_left hpt, List.map_id]

/-- C2 (amended): under the Like unique-pair constraint and the counter
invariant, two successive `toggle_like` requests by one actor restore the
Like table (up to row order) and every project row exactly. -/
theorem toggle_like_twice_restores (db : DB) (actor : User) (pid : Nat)
    (project : Project)
    (hp : db.projects.find? (fun p => p.id == pid) = some project)
    (hnodup : db.likes.Nodup) (hinv : likesInvAt db pid) :
    (runToggles db [(actor, pid), (actor, pid)]).likes.Perm db.likes ∧
    (runToggles db [(actor, pid), (actor, pid)]).projects = db.projects := by
  have hproj_mem : project ∈ db.projects := List.mem_of_find?_eq_some hp
  have hproj_id : project.id = pid := by simpa using List.find?_some hp
  have hinvp := hinv project hproj_mem hproj_id
  have hrun : runToggles db [(actor, pid), (actor, pid)] =
      toggleStep (toggleStep db (actor, pid)) (actor, pid) := rfl
  cases hfl : db.likes.find?
      (fun x => x.user_id == actor.id && x.project_id == pid) with
  | some l =>
    have hl_mem : l ∈ db.likes := List.mem_of_find?_eq_some hfl
    have hlup : l.user_id = actor.id ∧ l.project_id = pid := by
      have h := List.find?_some hfl
      simp at h
      exact h
    have hl_eq : l = { user_id := actor.id, project_id := pid } := by
      cases l with
      | mk u p =>
        obtain ⟨h1, h2⟩ := hlup
        simp only at h1 h2
        rw [h1, h2]
    have hcpos : 1 ≤ countLikes db pid := by
      have hm : l ∈ db.likes.filter (fun x => x.project_id == pid) :=
        List.mem_filter.mpr ⟨hl_mem, by simp [hlup.2]⟩
      have hpos := List.length_pos.mpr (List.ne_nil_of_mem hm)
      simpa [countLikes] using hpos
    have hstep1 : toggleStep db (actor, pid) =
        { db with
          likes := db.likes.erase l,
          projects := db.projects.map
            (setLikesCount pid (max 0 (project.likes_count - 1))) } := by
      unfold toggleStep
      rw [toggle_like_unlike_eq db actor pid project l hp hfl]
    have hp1 : (db.projects.map
          (setLikesCount pid (max 0 (project.likes_count - 1)))).find?
        (fun p => p.id == pid) =
        some (setLikesCount pid (max 0 (project.likes_count - 1)) project) := by
      rw [find?_map_setLikesCount, hp]
      rfl
    have hfl1 : (db.likes.erase l).find?
        (fun x => x.user_id == actor.id && x.project_id == pid) = none := by
      rw [List.find?_eq_none]
      intro x hx hpx
      have hx' := (List.Nodup.mem_erase_iff hnodup).mp hx
      apply hx'.1
      cases x with
      | mk u p =>
        simp at hpx
        rw [hl_eq, hpx.1, hpx.2]
    have heq2 := toggle_like_like_eq
      ({ db with
         likes := db.likes.erase l,
         projects := db.projects.map
           (setLikesCount pid (max 0 (project.likes_count - 1))) } : DB)
      actor pid (setLikesCount pid (max 0 (project.likes_count - 1)) project)
      hp1 hfl1
    rw [hrun, hstep1]
    unfold toggleStep
    rw [heq2]
    constructor
    · show ((db.likes.erase l) ++
          ([{ user_id := actor.id, project_id := pid }] : List Like)).Perm
            db.likes
      rw [← hl_eq]
      exact (List.perm_append_singleton l _).trans
        (List.perm_cons_erase hl_mem).symm
    · show (db.projects.map
            (setLikesCount pid (max 0 (project.likes_count - 1)))).map
          (setLikesCount pid
            ((setLikesCount pid (max 0 (project.likes_count - 1))
              project).likes_count + 1)) = db.projects
      apply map_setLikesCount_twice
      intro r hr hrid
      rw [hinv r hr hrid, setLikesCount_of_eq _ _ _ hproj_id]
      show (countLikes db pid : Int) =
        max 0 (project.likes_count - 1) + 1
      rw [hinvp]
      have hmax : max 0 ((countLikes db pid : Int) - 1) =
          (countLikes db pid : Int) - 1 := max_eq_right (by omega)
      rw [hmax]
      ring
  | none =>
    have hnotin : ({ user_id := actor.id, project_id := pid } : Like) ∉
        db.likes := by
      intro hmem
      have hno := List.find?_eq_none.mp hfl _ hmem
      simp at hno
    have hstep1 : toggleStep db (actor, pid) =
        { db with
          likes := db.likes ++ [{ user_id := actor.id, project_id := pid }],
          projects := db.projects.map
            (setLikesCount pid (project.likes_count + 1)),
          notifications :=
            if project.author_id ≠ actor.id then
              db.notifications ++ [{
                title := "New Like",
                message := displayName actor.first_name ++
                  " liked your project \x27" ++ project.title ++ "\x27",
                type := "success",
                user_id := project.author_id }]
            else db.notifications } := by
      unfold toggleStep
      rw [toggle_like_like_eq db actor pid project hp hfl]
    have hp1 : (db.projects.map
          (setLikesCount pid (project.likes_count + 1))).find?
        (fun p => p.id == pid) =
        some (setLikesCount pid (project.likes_count + 1) project) := by
      rw [find?_map_setLikesCount, hp]
      rfl
    have hfl1 : (db.likes ++
          ([{ user_id := actor.id, project_id := pid }] : List Like)).find?
        (fun x => x.user_id == actor.id && x.project_id == pid) =
        some { user_id := actor.id, project_id := pid } := by
      rw [List.find?_append, hfl]
      simp [List.find?]
    have heq2 := toggle_like_unlike_eq
      ({ db with
         likes := db.likes ++ [{ user_id := actor.id, project_id := pid }],
         projects := db.projects.map
           (setLikesCount pid (project.likes_count + 1)),
         notifications :=
           if project.author_id ≠ actor.id then
             db.notifications ++ [{
               title := "New Like",
               message := displayName actor.first_name ++
                 " liked your project \x27" ++ project.title ++ "\x27",
               type := "success",
               user_id := project.author_id }]
           else db.notifications } : DB)
      actor pid (setLikesCount pid (project.likes_count + 1) project)
      ({ user_id := actor.id, project_id := pid } : Like)
      hp1 hfl1
    rw [hrun, hstep1]
    unfold toggleStep
    rw [heq2]
    constructor
    · show ((db.likes ++
          ([{ user_id := actor.id, project_id := pid }] : List Like)).erase
            ({ user_id := actor.id, project_id := pid } : Like)).Perm db.likes
      rw [List.erase_append_right _ hnotin, List.erase_cons_head,
        List.append_nil]
    · show (db.projects.map
            (setLikesCount pid (project.likes_count + 1))).map
          (setLikesCount pid
            (max 0 ((setLikesCount pid (project.likes_count + 1)
              project).likes_count - 1))) = db.projects
      apply map_setLikesCount_twice
      intro r hr hrid
      rw [hinv r hr hrid, setLikesCount_of_eq _ _ _ hproj_id]
      show (countLikes db pid : Int) =
        max 0 (project.likes_count + 1 - 1)
      rw [hinvp]
      have hmax : max 0 ((countLikes db pid : Int) + 1 - 1) =
          (countLikes db pid : Int) := by
        rw [show ((countLikes db pid : Int) + 1 - 1) =
          (countLikes db pid : Int) by ring]
        exact max_eq_right (Int.natCast_nonneg _)
      rw [hmax]

/-- Witness for C2's amended statement on the fixture store. -/
theorem toggle_like_twice_restores_witness :
    (runToggles fixDB [(alice, 1), (alice, 1)]).likes.Perm fixDB.likes ∧
    (runToggles fixDB [(alice, 1), (alice, 1)]).projects = fixDB.projects :=
  toggle_like_twice_restores fixDB alice 1 fixP1 (by decide) (by decide)
    (by decide)

/-- C2 counterexample: the stronger reading — the whole state returns to
the original exactly — is false: on the fixture store a like-then-unlike
pair by `alice` leaves behind the Notification row written to the author on
the like step. -/
theorem toggle_like_twice_not_identity :
    runToggles fixDB [(alice, 1), (alice, 1)] ≠ fixDB := by
  decide
